import Mathlib

/-!
Verification of the Unmutte backend (`src/main.py`, `src/schemas.py`).

Modelling conventions:
- Python strings are modelled as Lean `String`, with per-code-point
  operations on `String.data : List Char` (Python `len`, slicing and
  `[::-1]` all work on code points, as does `List Char`).
- `str.lower()` is modelled by mapping `Char.toLower` over the code
  points; for the ASCII texts appearing in the trigger list and in
  all concrete inputs used below this agrees with Python.
- Python floats: every value `estimate_intensity` can return is `k/8`
  for an integer `0 ≤ k ≤ 8`, which is exact in binary floating point
  (division by a power of two), and `max`/`min` are exact.  The float
  literal `0.7` is strictly below the rational `7/10` and `0.8` is
  strictly above `4/5`, and no value `k/8` lies between `0.7` and the
  double nearest `0.7`, nor between `4/5 = 0.8` and the double nearest
  `0.8`; hence the comparisons `score/8.0 > 0.7` and `intensity >= 0.8`
  in the source coincide with the exact rational comparisons
  `> 7/10` and `≥ 4/5` used here.  Intensities are therefore modelled
  as `ℚ`.
- The document-store adapter (`database.py`) is not part of `src/`;
  its contract is taken from the specification (§2, §6): documents are
  flat field maps, `create_document` appends a document and returns a
  server-assigned id, `get_documents` filters a collection by field
  equality up to a limit, and either call can fail ("unavailable" /
  "operation error"), modelled by a `failing` flag on the store.
-/

/-- Number of occurrences (with overlap) of `needle` as a contiguous
sublist of `hay`: the number of start positions at which `needle`
matches. -/
def countOcc (needle : List Char) : List Char → Nat
  | [] => if needle.isEmpty then 1 else 0
  | c :: t => (if needle.isPrefixOf (c :: t) then 1 else 0) + countOcc needle t

/-- Python's `needle in hay` substring test. -/
def containsSub (needle : List Char) : List Char → Bool
  | [] => needle.isEmpty
  | c :: t => needle.isPrefixOf (c :: t) || containsSub needle t

/-- Python `text.lower()` (per code point, ASCII letters). -/
def lowerStr (s : String) : List Char :=
  s.data.map Char.toLower

/-- Python `s[::-1]`. -/
def strRev (s : String) : String :=
  String.mk s.data.reverse

/-- main.py lines 75-78: the fixed trigger-word list. -/
def TRIGGER_WORDS : List String :=
  ["hate", "useless", "worthless", "kill", "die", "abuse", "stupid", "idiot",
   "nobody", "broken", "angry", "rage"]

/-- main.py line 83: `sum(1 for w in TRIGGER_WORDS if w in t)` — the number
of trigger words that occur (at least once) as substrings of the lowered
text. -/
def triggerCount (text : String) : Nat :=
  (TRIGGER_WORDS.filter (fun w => containsSub w.data (lowerStr text))).length

/-- main.py lines 81-85:
`score = sum(1 for w in TRIGGER_WORDS if w in text.lower())`;
`score += min(5, max(0, len(text) // 120))`;
`return max(0.0, min(1.0, score / 8.0))`. -/
def estimate_intensity (text : String) : ℚ :=
  let score := triggerCount text + min 5 (max 0 (text.length / 120))
  max 0 (min 1 ((score : ℚ) / 8))

/-- main.py lines 64-68. -/
def SOFT_RESPONSES_EN : List String :=
  ["I’m here, yaar. Say whatever you need. No judgement, only warmth.",
   "That sounded really heavy. Take your time, I’m listening.",
   "You’re not alone. Main hoon na — I’m right here with you."]

/-- main.py lines 69-73. -/
def SOFT_RESPONSES_HI : List String :=
  ["Main yahin hoon, yaar. Jo mann mein hai bol do. Koi faisla nahi.",
   "Ye sab kaafi bhaari lag raha hai. Araam se, main sun raha/rahi hoon.",
   "Tum akelay nahi ho. Main saath hoon, bilkul paas."]

/-- main.py line 90, the high-intensity suffix (inline literal in the
source). -/
def SUFFIX_HIGH : String :=
  " Thoda sa saans lein — 4 count in, 4 hold, 4 out. Main yahin hoon."

/-- main.py line 90, the low-intensity suffix (inline literal in the
source). -/
def SUFFIX_LOW : String :=
  " Bolo aur, jo dil mein hai."

/-- Python `(lang or "").lower().startswith("hi")` for a `str` lang
(`lang or ""` is the identity on strings up to the empty string,
which startswith treats the same). -/
def langIsHi (lang : String) : Bool :=
  ("hi".data).isPrefixOf (lowerStr lang)

/-- main.py lines 88-91:
`base = SOFT_RESPONSES_HI if (lang or "").lower().startswith("hi") else SOFT_RESPONSES_EN`;
`add = SUFFIX_HIGH if estimate_intensity(text) > 0.7 else SUFFIX_LOW`;
`return base[len(text) % len(base)] + add`.
The index `len(text) % len(base)` is always in range, so `getD`'s
default is never used. -/
def generate_reply (text : String) (lang : String) : String :=
  let base := if langIsHi lang then SOFT_RESPONSES_HI else SOFT_RESPONSES_EN
  let add := if estimate_intensity text > 7/10 then SUFFIX_HIGH else SUFFIX_LOW
  base.getD (text.length % base.length) "" ++ add

/-- Field values a stored document can hold: strings, ints (Python int),
rationals (the exact model of the float `intensity`), and `null` (Python
`None`, serialized for `Optional` fields by `model_dump`). -/
inductive FVal
  | str (v : String)
  | int (v : Int)
  | rat (v : ℚ)
  | null
  deriving DecidableEq

/-- A flat document: an ordered list of field-name / value pairs. -/
def Doc : Type := List (String × FVal)

instance : DecidableEq Doc := by
  unfold Doc
  infer_instance

/-- Modelled from the spec: the state of the external document store
behind `database.py` (not under `src/`).  `docs` is the insertion-ordered
list of (collection name, document) pairs, `nextId` generates server
ids, and `failing` makes every store call raise (the spec's
"unavailable" / "operation error" failure modes, §6). -/
structure Store where
  failing : Bool
  docs : List (String × Doc)
  nextId : Nat
  deriving DecidableEq

/-- Modelled from the spec: `create_document(collection_name, fields) -> id`
(database.py, not under `src/`): appends the document to the collection
and returns a server-assigned id, or raises when the store is failing.
`Except.error ()` models a raised exception. -/
def create_document (s : Store) (coll : String) (fields : Doc) :
    Except Unit (String × Store) :=
  if s.failing then Except.error ()
  else Except.ok (toString s.nextId,
    { failing := s.failing, docs := s.docs ++ [(coll, fields)], nextId := s.nextId + 1 })

/-- Field-equality match of a document against a filter mapping. -/
def docMatches (filt : Doc) (d : Doc) : Bool :=
  filt.all (fun kv => decide (d.lookup kv.1 = some kv.2))

/-- Modelled from the spec:
`get_documents(collection_name, filter, limit) -> documents`
(database.py, not under `src/`): the documents of the collection whose
fields match the filter by equality, up to `limit`, or raises when the
store is failing. -/
def get_documents (s : Store) (coll : String) (filt : Doc) (limit : Nat) :
    Except Unit (List Doc) :=
  if s.failing then Except.error ()
  else Except.ok
    (((s.docs.filter (fun p => p.1 == coll && docMatches filt p.2)).map Prod.snd).take limit)

/-- main.py lines 50-53 (`ChatRequest`): `lang` is `Optional[str] = "en"`,
so an absent field parses to `some "en"` and an explicit `null` to
`none`. -/
structure ChatRequest where
  session_id : String
  text : String
  lang : Option String
  deriving DecidableEq

/-- main.py lines 55-59 (`ChatResponse`). -/
structure ChatResponse where
  reply : String
  intensity : ℚ
  lang : String
  suggest_break : Bool
  deriving DecidableEq

/-- Python `v or default` for an `Optional[str]` value: `None` and the
empty string are falsy. -/
def pyOr (v : Option String) (d : String) : String :=
  match v with
  | Option.none => d
  | Option.some s => if s = "" then d else s

/-- The value `model_dump` / the handler stores for an `Optional[str]`
field. -/
def optVal (v : Option String) : FVal :=
  match v with
  | Option.none => FVal.null
  | Option.some s => FVal.str s

/-- The user-message document built by `chat` (main.py lines 101-108). -/
def chatUserDoc (req : ChatRequest) (intensity : ℚ) : Doc :=
  [("session_id", FVal.str req.session_id),
   ("role", FVal.str "user"),
   ("text", FVal.str ""),
   ("ciphertext", FVal.str ("enc::" ++ strRev req.text)),
   ("intensity", FVal.rat intensity),
   ("lang", optVal req.lang)]

/-- The assistant-message document built by `chat` (main.py lines
109-116). -/
def chatAsstDoc (req : ChatRequest) (reply : String) (intensity : ℚ) : Doc :=
  [("session_id", FVal.str req.session_id),
   ("role", FVal.str "assistant"),
   ("text", FVal.str ""),
   ("ciphertext", FVal.str ("enc::" ++ strRev reply)),
   ("intensity", FVal.rat intensity),
   ("lang", optVal req.lang)]

/-- main.py lines 93-121, `POST /api/chat`.  The two `create_document`
calls sit inside one `try`/`except Exception: pass`, so a raise from
either leaves the response unaffected (and keeps whatever writes
happened before the raise).  The comparison `intensity >= 0.8` is the
exact `≥ 4/5` (see the header note on floats).  The handler itself
never raises: it always returns a `ChatResponse`. -/
def chat (s : Store) (req : ChatRequest) : ChatResponse × Store :=
  let intensity := estimate_intensity req.text
  let reply := generate_reply req.text (pyOr req.lang "en")
  let sb := decide (intensity ≥ 4/5)
  let s2 :=
    match create_document s "message" (chatUserDoc req intensity) with
    | Except.error _ => s
    | Except.ok (_, s1) =>
      match create_document s1 "message" (chatAsstDoc req reply intensity) with
      | Except.error _ => s1
      | Except.ok (_, s2) => s2
  ({ reply := reply, intensity := intensity, lang := pyOr req.lang "en",
     suggest_break := sb }, s2)

/-- Response shape `{id, status}` of the created-resource endpoints. -/
structure CreateResponse where
  id : String
  status : String
  deriving DecidableEq

/-- main.py lines 124-125 (`NewPost`). -/
structure NewPost where
  content : String
  deriving DecidableEq

/-- main.py lines 133-134: `f"Ally-{randint(100,999)}"`; the random draw
is modelled as the parameter `n`. -/
def make_alias (n : Nat) : String :=
  "Ally-" ++ toString n

/-- The post document built by `create_post` (main.py lines 138-144);
`aliasN` and `seedN` are the two `randint` draws. -/
def postDoc (data : NewPost) (aliasN seedN : Nat) : Doc :=
  [("alias", FVal.str (make_alias aliasN)),
   ("avatar_seed", FVal.str (toString seedN)),
   ("content", FVal.str data.content),
   ("status", FVal.str "pending"),
   ("reports", FVal.int 0)]

/-- main.py lines 136-145, `POST /api/community/post`.  No `try`/`except`:
a store raise propagates out of the handler (a failed request). -/
def create_post (s : Store) (data : NewPost) (aliasN seedN : Nat) :
    Except Unit (CreateResponse × Store) :=
  match create_document s "post" (postDoc data aliasN seedN) with
  | Except.error e => Except.error e
  | Except.ok (docId, s1) => Except.ok ({ id := docId, status := "pending" }, s1)

/-- main.py lines 147-150, `GET /api/community/feed`:
`get_documents("post", {"status": "published"}, limit=50)`. -/
def feed (s : Store) : Except Unit (List Doc) :=
  get_documents s "post" [("status", FVal.str "published")] 50

/-- main.py lines 173-176 (`MoodReq`), the request model actually bound
to `POST /api/wellness/mood`: `mood: int` with NO range constraint —
pydantic accepts any integer here. -/
structure MoodReq where
  session_id : String
  mood : Int
  note : Option String
  deriving DecidableEq

/-- schemas.py line 46: `mood: int = Field(..., ge=1, le=5)` — the range
constraint the `MoodEntry` collection schema declares for `mood`. -/
def moodEntryMoodOk (m : Int) : Bool :=
  decide (1 ≤ m) && decide (m ≤ 5)

/-- The document `add_mood` stores: `m.model_dump()` of `MoodReq`. -/
def moodDoc (m : MoodReq) : Doc :=
  [("session_id", FVal.str m.session_id),
   ("mood", FVal.int m.mood),
   ("note", optVal m.note)]

/-- main.py lines 178-181, `POST /api/wellness/mood`: validation is the
`MoodReq` model (any int mood); the handler stores `m.model_dump()`
directly and returns `{id}`. -/
def add_mood (s : Store) (m : MoodReq) : Except Unit (String × Store) :=
  match create_document s "moodentry" (moodDoc m) with
  | Except.error e => Except.error e
  | Except.ok (docId, s1) => Except.ok (docId, s1)

/-- main.py lines 195-197 (`CounselorReq`), the request model bound to
`POST /api/premium/request`: only `session_id` and `topic` — no
`status` field. -/
structure CounselorReq where
  session_id : String
  topic : Option String
  deriving DecidableEq

/-- The document `request_listener` stores: `req.model_dump()` of
`CounselorReq` — fields `session_id` and `topic` only. -/
def counselorDoc (req : CounselorReq) : Doc :=
  [("session_id", FVal.str req.session_id),
   ("topic", optVal req.topic)]

/-- main.py lines 203-206, `POST /api/premium/request`: stores
`req.model_dump()` into `counselorrequest` and answers
`{id, status: "queued"}`. -/
def request_listener (s : Store) (req : CounselorReq) :
    Except Unit (CreateResponse × Store) :=
  match create_document s "counselorrequest" (counselorDoc req) with
  | Except.error e => Except.error e
  | Except.ok (docId, s1) => Except.ok ({ id := docId, status := "queued" }, s1)

/-- An empty, healthy store used in concrete witnesses. -/
def store0 : Store :=
  { failing := false, docs := [], nextId := 0 }

/-- An empty store whose calls all raise. -/
def storeFail : Store :=
  { failing := true, docs := [], nextId := 0 }

/-- Total number of trigger-word occurrences in the lowered text,
counted per start position (with overlap), summed over the trigger
list. -/
def occTotal (text : String) : Nat :=
  (TRIGGER_WORDS.map (fun w => countOcc w.data (lowerStr text))).sum

/-- The intensity formula as the spec states it (§4.1, §8): trigger
matches counted PER OCCURRENCE (with overlap), then the length bonus,
division by 8 and the clamp.  This is the spec-side definition used to
compare against `estimate_intensity`. -/
def intensityClaimOcc (text : String) : ℚ :=
  let k := occTotal text + min 5 (text.length / 120)
  max 0 (min 1 ((k : ℚ) / 8))

/-- The clamp formula with the match count taken as the number of
DISTINCT trigger words present (each counted once however often it
occurs) — the amended form of the spec's formula. -/
def intensityClaimDistinct (text : String) : ℚ :=
  let k := triggerCount text + min 5 (text.length / 120)
  max 0 (min 1 ((k : ℚ) / 8))

/-- Requests reused by the concrete witnesses. -/
def chatReq0 : ChatRequest :=
  { session_id := "s", text := "hello", lang := Option.some "en" }

/-- A post body reused by the concrete witnesses. -/
def post0 : NewPost :=
  { content := "hello" }

/-- A chat request whose text holds seven distinct trigger words, so its
intensity is 7/8 ≥ 4/5. -/
def chatReqHigh : ChatRequest :=
  { session_id := "s",
    text := "hate useless worthless kill die abuse stupid",
    lang := Option.some "en" }

/-- Clamped division by 8 is monotone in the numerator. -/
theorem clampDiv8_mono {a b : Nat} (h : a ≤ b) :
    max (0 : ℚ) (min 1 ((a : ℚ) / 8)) ≤ max 0 (min 1 ((b : ℚ) / 8)) := by
  have hab : (a : ℚ) ≤ (b : ℚ) := by exact_mod_cast h
  have hd : (a : ℚ) / 8 ≤ (b : ℚ) / 8 := by gcongr
  exact max_le_max le_rfl (min_le_min le_rfl hd)

/-- C1: the claim says POST /api/wellness/mood rejects mood 0 and 6 by
input validation (range [1,5]) and accepts 1 and 5.  The handler is
bound to `MoodReq` (main.py), which has no range constraint, so moods 0
and 6 pass validation and are persisted; the range `ge=1, le=5` is only
declared on the unused `MoodEntry` model (schemas.py).  This theorem
evaluates the code at the failing inputs: the handler succeeds on mood
0 and on mood 6 (no validation rejection), stores the out-of-range
document, while the collection schema's own range check rejects 0 and 6
and accepts 1 and 5. -/
theorem mood_range_not_enforced :
    (add_mood store0 { session_id := "s1", mood := 0, note := Option.none }).isOk = true ∧
    (add_mood store0 { session_id := "s1", mood := 6, note := Option.none }).isOk = true ∧
    add_mood store0 { session_id := "s1", mood := 0, note := Option.none } =
      Except.ok ("0",
        { failing := false,
          docs := [("moodentry",
            [("session_id", FVal.str "s1"), ("mood", FVal.int 0), ("note", FVal.null)])],
          nextId := 1 }) ∧
    moodEntryMoodOk 0 = false ∧ moodEntryMoodOk 6 = false ∧
    moodEntryMoodOk 1 = true ∧ moodEntryMoodOk 5 = true :=
  ⟨rfl, rfl, rfl, rfl, rfl, rfl, rfl⟩

/-- C2 counterexample: on "hatehate" the trigger word "hate" occurs
twice, so the claimed per-occurrence formula gives 2/8 = 1/4, but the
code counts each trigger word once however often it occurs and returns
1/8. -/
theorem intensity_occurrence_formula_cex :
    estimate_intensity "hatehate" = 1/8 ∧
    intensityClaimOcc "hatehate" = 1/4 ∧
    ¬ estimate_intensity "hatehate" = intensityClaimOcc "hatehate" := by
  have h1 : triggerCount "hatehate" = 1 := by decide
  have h2 : occTotal "hatehate" = 2 := by decide
  have h3 : "hatehate".length = 8 := by decide
  refine ⟨?_, ?_, ?_⟩ <;>
    simp only [estimate_intensity, intensityClaimOcc, h1, h2, h3] <;> norm_num

/-- C2 amended: `estimate_intensity` equals the clamp formula with `k`
the number of DISTINCT trigger words present as case-insensitive
substrings (each counted once, however many occurrences), and
`estimate_intensity "" = 0`. -/
theorem estimate_intensity_closed_form :
    (∀ text : String, estimate_intensity text = intensityClaimDistinct text) ∧
    estimate_intensity "" = 0 := by
  constructor
  · intro text
    simp only [estimate_intensity, intensityClaimDistinct, Nat.zero_max]
  · have h1 : triggerCount "" = 0 := by decide
    have h2 : "".length = 0 := by decide
    simp only [estimate_intensity, h1, h2]
    norm_num

/-- C4: the claim says the created CounselorRequest document has status
"queued".  The handler persists `CounselorReq.model_dump()`, which has
only `session_id` and `topic` — the stored document has NO status field
at all (the `status` default "queued" lives on the unused
`CounselorRequest` schema, schemas.py line 54) — while the response
still reports status "queued". -/
theorem counselor_status_not_persisted :
    request_listener store0 { session_id := "s1", topic := Option.some "stress" } =
      Except.ok ({ id := "0", status := "queued" },
        { failing := false,
          docs := [("counselorrequest",
            [("session_id", FVal.str "s1"), ("topic", FVal.str "stress")])],
          nextId := 1 }) ∧
    (counselorDoc { session_id := "s1", topic := Option.some "stress" }).lookup "status" =
      Option.none :=
  ⟨rfl, rfl⟩

/-- C3: the chat handler computes its response before (and independently
of) the store writes and swallows any store raise, so it always returns
the valid reply; `create_post` has no try/except, so a raising store
makes the request fail. -/
theorem chat_tolerates_store_failure (s : Store) (req : ChatRequest)
    (p : NewPost) (aliasN seedN : Nat) :
    (chat s req).1 =
      { reply := generate_reply req.text (pyOr req.lang "en"),
        intensity := estimate_intensity req.text,
        lang := pyOr req.lang "en",
        suggest_break := decide (estimate_intensity req.text ≥ 4/5) } ∧
    (s.failing = true → create_post s p aliasN seedN = Except.error ()) := by
  constructor
  · rfl
  · intro h
    simp [create_post, create_document, h]

/-- C3 witness: on a store whose calls all raise, chat still returns the
full valid response while create_post fails. -/
theorem chat_tolerates_store_failure_witness :
    (chat storeFail chatReq0).1 =
      { reply := generate_reply chatReq0.text (pyOr chatReq0.lang "en"),
        intensity := estimate_intensity chatReq0.text,
        lang := pyOr chatReq0.lang "en",
        suggest_break := decide (estimate_intensity chatReq0.text ≥ 4/5) } ∧
    create_post storeFail post0 101 42 = Except.error () :=
  ⟨(chat_tolerates_store_failure storeFail chatReq0 post0 101 42).1,
   (chat_tolerates_store_failure storeFail chatReq0 post0 101 42).2 rfl⟩

/-- C5: on a healthy store, chat appends exactly two message documents —
user input then assistant reply — whose stored `text` field is the
empty string (no plaintext) and whose `ciphertext` is "enc::" followed
by the character-reversed plaintext / reply. -/
theorem chat_persists_reversed_placeholder (s : Store) (req : ChatRequest)
    (h : s.failing = false) :
    ∃ d1 d2 : Doc,
      (chat s req).2.docs = s.docs ++ [("message", d1), ("message", d2)] ∧
      d1.lookup "text" = some (FVal.str "") ∧
      d2.lookup "text" = some (FVal.str "") ∧
      d1.lookup "ciphertext" = some (FVal.str ("enc::" ++ strRev req.text)) ∧
      d2.lookup "ciphertext" =
        some (FVal.str ("enc::" ++ strRev (generate_reply req.text (pyOr req.lang "en")))) := by
  refine ⟨chatUserDoc req (estimate_intensity req.text),
          chatAsstDoc req (generate_reply req.text (pyOr req.lang "en"))
            (estimate_intensity req.text), ?_, rfl, rfl, rfl, rfl⟩
  simp [chat, create_document, h]

/-- C5 witness at a concrete request on the empty healthy store. -/
theorem chat_persists_reversed_placeholder_witness :
    ∃ d1 d2 : Doc,
      (chat store0 chatReq0).2.docs = store0.docs ++ [("message", d1), ("message", d2)] ∧
      d1.lookup "text" = some (FVal.str "") ∧
      d2.lookup "text" = some (FVal.str "") ∧
      d1.lookup "ciphertext" = some (FVal.str ("enc::" ++ strRev chatReq0.text)) ∧
      d2.lookup "ciphertext" =
        some (FVal.str ("enc::" ++ strRev (generate_reply chatReq0.text (pyOr chatReq0.lang "en")))) :=
  chat_persists_reversed_placeholder store0 chatReq0 rfl

/-- C6: generate_reply picks the Hindi-influenced set exactly when the
language tag case-insensitively starts with "hi", takes the base
sentence at index `len(text) mod 3` in the chosen set (so the base
depends on the text only through its length), and appends the breathing
suffix exactly when the recomputed intensity exceeds 7/10 (the exact
form of the float comparison `> 0.7`), else the other fixed suffix. -/
theorem generate_reply_structure (text lang : String) :
    generate_reply text lang =
      (if langIsHi lang then SOFT_RESPONSES_HI else SOFT_RESPONSES_EN).getD
          (text.length % 3) ""
        ++ (if estimate_intensity text > 7/10 then SUFFIX_HIGH else SUFFIX_LOW) := by
  cases h : langIsHi lang <;>
    simp [generate_reply, h, SOFT_RESPONSES_EN, SOFT_RESPONSES_HI]

/-- C7: create_post always stores status "pending" and answers
`{id, status: "pending"}`; feed filters the post collection by
status = "published" (limit 50), so every feed item has status
"published" and the freshly created post is not among them. -/
theorem post_pending_absent_from_feed (s : Store) (data : NewPost)
    (aliasN seedN : Nat) (h : s.failing = false) :
    ∃ s' : Store,
      create_post s data aliasN seedN =
        Except.ok ({ id := toString s.nextId, status := "pending" }, s') ∧
      ∃ items : List Doc, feed s' = Except.ok items ∧
        (∀ d ∈ items, d.lookup "status" = some (FVal.str "published")) ∧
        postDoc data aliasN seedN ∉ items := by
  refine ⟨{ failing := s.failing,
            docs := s.docs ++ [("post", postDoc data aliasN seedN)],
            nextId := s.nextId + 1 }, ?_, ?_⟩
  · simp [create_post, create_document, h]
  · have hstat : ∀ d ∈ (((s.docs ++ [("post", postDoc data aliasN seedN)]).filter
          (fun p => p.1 == "post" &&
            docMatches [("status", FVal.str "published")] p.2)).map Prod.snd).take 50,
        d.lookup "status" = some (FVal.str "published") := by
      intro d hd
      obtain ⟨p, hp, rfl⟩ := List.mem_map.mp (List.take_subset _ _ hd)
      have hp2 := (List.mem_filter.mp hp).2
      simp [docMatches] at hp2
      exact hp2.2
    refine ⟨_, ?_, hstat, ?_⟩
    · simp [feed, get_documents, h]
    · intro hmem
      have hlook := hstat _ hmem
      have hpend : (postDoc data aliasN seedN).lookup "status" =
          some (FVal.str "pending") := rfl
      rw [hpend] at hlook
      simp at hlook

/-- C7 witness on the empty healthy store. -/
theorem post_pending_absent_from_feed_witness :
    ∃ s' : Store,
      create_post store0 post0 101 42 =
        Except.ok ({ id := toString store0.nextId, status := "pending" }, s') ∧
      ∃ items : List Doc, feed s' = Except.ok items ∧
        (∀ d ∈ items, d.lookup "status" = some (FVal.str "published")) ∧
        postDoc post0 101 42 ∉ items :=
  post_pending_absent_from_feed store0 post0 101 42 rfl

/-- C8: in every chat response, suggest_break holds exactly when the
returned intensity is at least 4/5 (the exact form of the float
comparison `>= 0.8`). -/
theorem suggest_break_iff_intensity (s : Store) (req : ChatRequest) :
    (chat s req).1.suggest_break = true ↔ (chat s req).1.intensity ≥ 4/5 := by
  simp [chat]

/-- C9 counterexample: "hatekillxxxx" and "hatehatehate" have equal
length 12; the first has 2 trigger occurrences, the second 3, yet the
first scores 1/4 and the second only 1/8 (the code counts distinct
trigger words, not occurrences), so the intensity is not monotone in
the occurrence count at fixed length. -/
theorem occurrence_monotonicity_cex :
    "hatekillxxxx".length = "hatehatehate".length ∧
    occTotal "hatekillxxxx" ≤ occTotal "hatehatehate" ∧
    ¬ estimate_intensity "hatekillxxxx" ≤ estimate_intensity "hatehatehate" := by
  have h1 : triggerCount "hatekillxxxx" = 2 := by decide
  have h2 : triggerCount "hatehatehate" = 1 := by decide
  have h3 : "hatekillxxxx".length = 12 := by decide
  have h4 : "hatehatehate".length = 12 := by decide
  refine ⟨by decide, by decide, ?_⟩
  simp only [estimate_intensity, h1, h2, h3, h4]
  norm_num

/-- C9 amended: estimate_intensity is monotone non-decreasing in the
number of DISTINCT trigger words present (at fixed length) and in the
length (at fixed distinct-trigger count). -/
theorem estimate_intensity_monotone :
    (∀ t1 t2 : String, t1.length = t2.length → triggerCount t1 ≤ triggerCount t2 →
      estimate_intensity t1 ≤ estimate_intensity t2) ∧
    (∀ t1 t2 : String, triggerCount t1 = triggerCount t2 → t1.length ≤ t2.length →
      estimate_intensity t1 ≤ estimate_intensity t2) := by
  constructor
  · intro t1 t2 hL hK
    simp only [estimate_intensity, hL]
    exact clampDiv8_mono (Nat.add_le_add hK le_rfl)
  · intro t1 t2 hK hL
    simp only [estimate_intensity, hK]
    exact clampDiv8_mono (Nat.add_le_add le_rfl
      (min_le_min le_rfl (max_le_max le_rfl (Nat.div_le_div_right hL))))

/-- C9 amended witness: both monotonicity parts at concrete texts. -/
theorem estimate_intensity_monotone_witness :
    estimate_intensity "xxxx" ≤ estimate_intensity "hate" ∧
    estimate_intensity "hate" ≤ estimate_intensity "hatex" :=
  ⟨estimate_intensity_monotone.1 "xxxx" "hate" (by decide) (by decide),
   estimate_intensity_monotone.2 "hate" "hatex" (by decide) (by decide)⟩

/-- C10: whenever a chat response suggests a break (intensity ≥ 4/5),
the reply ends in the breathing-exercise suffix, because generate_reply
recomputes the same intensity and 4/5 exceeds the suffix threshold
7/10. -/
theorem break_implies_breathing (s : Store) (req : ChatRequest)
    (h : (chat s req).1.suggest_break = true) :
    ∃ pre : String, (chat s req).1.reply = pre ++ SUFFIX_HIGH := by
  have hi : estimate_intensity req.text ≥ 4/5 := by
    simpa [chat] using h
  have hgt : estimate_intensity req.text > 7/10 :=
    lt_of_lt_of_le (by norm_num) hi
  refine ⟨(if langIsHi (pyOr req.lang "en") then SOFT_RESPONSES_HI
      else SOFT_RESPONSES_EN).getD
      (req.text.length %
        (if langIsHi (pyOr req.lang "en") then SOFT_RESPONSES_HI
          else SOFT_RESPONSES_EN).length) "", ?_⟩
  show generate_reply req.text (pyOr req.lang "en") = _ ++ SUFFIX_HIGH
  simp only [generate_reply]
  rw [if_pos hgt]

/-- C10 witness: a request with seven distinct trigger words has
intensity 7/8, triggers suggest_break, and its reply ends in the
breathing suffix. -/
theorem break_implies_breathing_witness :
    ∃ pre : String, (chat store0 chatReqHigh).1.reply = pre ++ SUFFIX_HIGH :=
  break_implies_breathing store0 chatReqHigh (by
    have h1 : triggerCount chatReqHigh.text = 7 := by decide
    have h2 : chatReqHigh.text.length = 44 := by decide
    have h3 : estimate_intensity chatReqHigh.text = 7/8 := by
      simp only [estimate_intensity, h1, h2]
      norm_num
    simp only [chat, h3, decide_eq_true_eq]
    norm_num)
